import Mathlib

/-!
Shallow embedding of the ALTO WhatsApp bot (`server.js`): the per-user
interaction state machine (idle / awaiting captcha verification / in game),
the daily reset, the balance ledger, and the task catalog.

JS strings are modelled as Lean `String`s over their character lists, with
ASCII versions of `trim`, `toUpperCase`, `toLowerCase`, `split(' ')`,
`join(' ')` and `parseInt`.  External effects (replies, store writes, timer
scheduling and cancellation, AI calls) are recorded as an ordered trace of
`Action`s.  Randomness (`Math.random()`), the captcha token substring and the
current date are passed in explicitly through an `Env` record.
-/

namespace Alto

/-- ASCII whitespace, the characters `trim` strips in our inputs. -/
def isWsChar (c : Char) : Bool :=
  c = ' ' || c = '\t' || c = '\n' || c = '\r'

/-- ASCII model of upper-casing a single character (JS `toUpperCase`). -/
def upChar (c : Char) : Char :=
  if 97 ≤ c.toNat ∧ c.toNat ≤ 122 then Char.ofNat (c.toNat - 32) else c

/-- ASCII model of lower-casing a single character (JS `toLowerCase`). -/
def downChar (c : Char) : Char :=
  if 65 ≤ c.toNat ∧ c.toNat ≤ 90 then Char.ofNat (c.toNat + 32) else c

/-- JS `s.toUpperCase()` (ASCII model). -/
def jsToUpper (s : String) : String := ⟨s.data.map upChar⟩

/-- JS `s.toLowerCase()` (ASCII model). -/
def jsToLower (s : String) : String := ⟨s.data.map downChar⟩

/-- JS `s.trim()`: strip whitespace from both ends. -/
def jsTrim (s : String) : String :=
  ⟨((s.data.dropWhile isWsChar).reverse.dropWhile isWsChar).reverse⟩

/-- JS `s.startsWith(p)`. -/
def strStartsWith (s p : String) : Bool :=
  s.data.take p.data.length == p.data

/-- JS `s.endsWith(p)`. -/
def strEndsWith (s p : String) : Bool :=
  s.data.reverse.take p.data.length == p.data.reverse

/-- Split a character list at every single space, JS `split(' ')` style:
consecutive spaces yield empty chunks and the result is always nonempty. -/
def splitSp : List Char → List (List Char)
  | [] => [[]]
  | c :: rest =>
    match splitSp rest with
    | [] => [[]]
    | h :: t => if c = ' ' then [] :: h :: t else (c :: h) :: t

/-- JS `s.split(' ')`. -/
def jsSplitSpace (s : String) : List String := (splitSp s.data).map (⟨·⟩)

/-- Interleave a single space between chunks, JS `arr.join(' ')` style. -/
def joinSp : List (List Char) → List Char
  | [] => []
  | [x] => x
  | x :: y :: t => x ++ ' ' :: joinSp (y :: t)

/-- JS `arr.join(' ')`. -/
def jsJoinSpace (l : List String) : String := ⟨joinSp (l.map String.data)⟩

/-- Decimal digit test for `parseInt`. -/
def isDigitChar (c : Char) : Bool := 48 ≤ c.toNat && c.toNat ≤ 57

/-- Numeric value of the leading decimal digit run. -/
def decValue (l : List Char) : Nat :=
  l.foldl (fun n c => 10 * n + (c.toNat - 48)) 0

/-- Leading digit run of `parseInt` after the optional sign: `NaN` (`none`)
when there is no digit at all. -/
def jsParseIntCore (sign : Int) (l : List Char) : Option Int :=
  let ds := l.takeWhile isDigitChar
  if ds = [] then none else some (sign * (decValue ds : Int))

/-- JS `parseInt(s)` with the default radix: skip leading whitespace, read an
optional sign and then the leading decimal digit run; `NaN` becomes `none`. -/
def jsParseInt (s : String) : Option Int :=
  match s.data.dropWhile isWsChar with
  | '-' :: rest => jsParseIntCore (-1) rest
  | '+' :: rest => jsParseIntCore 1 rest
  | l => jsParseIntCore 1 l

/-- JS `parseInt(x)` where `x` may be `undefined` (a missing argument). -/
def jsParseIntOpt : Option String → Option Int
  | none => none
  | some s => jsParseInt s

/-- A catalog task: `{ id, bonus, duration, description }`. -/
structure Task where
  id : Int
  bonus : Int
  duration : Int
  description : String
deriving Repr, DecidableEq

/-- `user.captchaState`: either `{isWaiting: false}`, a claim challenge
`{isWaiting: true, type: 'claim', answer}`, or a task challenge
`{isWaiting: true, type: 'task', task, answer, timerId}`. -/
inductive CaptchaState where
  | notWaiting
  | claimWait (answer : String)
  | taskWait (task : Task) (answer : String) (timerId : Nat)
deriving Repr, DecidableEq

/-- `captchaState.isWaiting`. -/
def CaptchaState.isWaiting : CaptchaState → Bool
  | .notWaiting => false
  | .claimWait _ => true
  | .taskWait _ _ _ => true

/-- `captchaState.answer` (`undefined` when not waiting). -/
def CaptchaState.answer : CaptchaState → Option String
  | .notWaiting => none
  | .claimWait a => some a
  | .taskWait _ a _ => some a

/-- `captchaState.task` (`undefined` unless a task challenge). -/
def CaptchaState.taskRef : CaptchaState → Option Task
  | .taskWait t _ _ => some t
  | _ => none

/-- `captchaState.timerId` (`undefined` unless a task challenge). -/
def CaptchaState.timerRef : CaptchaState → Option Nat
  | .taskWait _ _ tid => some tid
  | _ => none

/-- One user record of `users.json`. -/
structure User where
  balance : Int
  isBlocked : Bool
  lastLogin : String
  claimedDailyBonus : Bool
  completedTasksToday : List Int
  isAdmin : Bool
  captchaState : CaptchaState
  inGame : Bool
  gameAnswer : Int
deriving Repr, DecidableEq

/-- `config.json`. -/
structure Config where
  adminPassword : String
  dailyBonusMin : Int
  dailyBonusMax : Int
deriving Repr, DecidableEq

/-- The `this.users` object: an insertion-ordered map from user id. -/
abbrev Users := List (String × User)

/-- JS object lookup `users[uid]`. -/
def lookupU : Users → String → Option User
  | [], _ => none
  | (k, v) :: rest, uid => if k = uid then some v else lookupU rest uid

/-- JS object assignment `users[uid] = u`: overwrite in place, or append. -/
def setU : Users → String → User → Users
  | [], uid, u => [(uid, u)]
  | (k, v) :: rest, uid, u =>
    if k = uid then (k, u) :: rest else (k, v) :: setU rest uid u

/-- JS `delete users[uid]`. -/
def delU : Users → String → Users
  | [], _ => []
  | (k, v) :: rest, uid => if k = uid then rest else (k, v) :: delU rest uid

/-- The bot's mutable in-memory working set (`this.users`, `this.tasks`,
`this.config`). -/
structure BotState where
  users : Users
  tasks : List Task
  config : Config
deriving Repr, DecidableEq

/-- The distinct user-facing replies the handlers can send, with the data
interpolated into the message text. -/
inductive Reply where
  | welcome
  | menu (isAdmin : Bool)
  | saldo (balance : Int)
  | ownerContact
  | alreadyClaimed
  | claimCaptchaPrompt (token : String)
  | noTasksAvailable
  | availableTasks (tasks : List Task)
  | invalidTaskId
  | taskNotFound
  | taskAlreadyDone
  | taskCaptchaPrompt (token : String) (duration : Int)
  | timeExpired
  | captchaCorrect
  | captchaWrong
  | taskRewardMsg (bonus balance : Int)
  | claimRewardMsg (reward balance : Int)
  | gameWelcome
  | gameExited
  | invalidNumber
  | tooLow
  | tooHigh
  | gameWin (answer reward balance : Int)
  | adminOnly
  | adminLoginOk
  | adminLoginFail
  | chatCleared
  | userListMsg (users : Users)
  | userBlocked (target : String)
  | userUnblocked (target : String)
  | userDeleted (target : String)
  | userNotFound (target : String)
  | addTugasUsage
  | taskAdded (id : Int)
  | noTasksYet
  | allTasks (tasks : List Task)
  | taskDeleted (id : Int)
  | setBonusUsage
  | bonusSet (lo hi : Int)
  | imageUsage
  | imageWorking
  | videoUsage
  | videoWorking
deriving Repr, DecidableEq

/-- Observable side effects, in the order the code performs them. -/
inductive Action where
  | reply (r : Reply)
  | writeUsers (users : Users)
  | writeTasks (tasks : List Task)
  | writeConfig (cfg : Config)
  | setTimer (timerId : Nat) (delayMs : Int)
  | cancelTimer (timerId : Nat)
  | aiChat (body : String)
  | aiUnknownCommand (body : String)
  | genImage (prompt : String)
  | genVideo (prompt : String)
  | clearChat (userId : String)
  | jsError
deriving Repr, DecidableEq

/-- The nondeterministic inputs of one event: the current date string, the raw
random substring used for the captcha token, the two `Math.random()` draws,
and the fresh `setTimeout` handle. -/
structure Env where
  today : String
  rawToken : String
  bonusRand : ℚ
  gameRand : ℚ
  timerId : Nat
deriving Repr, DecidableEq

/-- `generateCaptcha()`: the random base-36 substring, upper-cased. -/
def generateCaptcha (env : Env) : String := jsToUpper env.rawToken

/-- Commit an updated user record to the in-memory map. -/
def putUser (st : BotState) (uid : String) (u : User) : BotState :=
  { st with users := setU st.users uid u }

/-- The record created for a first-time sender. -/
def freshUser (today : String) : User :=
  { balance := 0, isBlocked := false, lastLogin := today,
    claimedDailyBonus := false, completedTasksToday := [], isAdmin := false,
    captchaState := .notWaiting, inGame := false, gameAnswer := 0 }

/-- The daily reset applied when `lastLogin` differs from today. -/
def rolloverUser (u : User) (today : String) : User :=
  { u with lastLogin := today, claimedDailyBonus := false,
           completedTasksToday := [] }

/-- `startGame`: pick a target in `[1,100]`, enter the game, flush. -/
def startGame (st : BotState) (uid : String) (u : User) (env : Env) :
    BotState × List Action :=
  let u' := { u with inGame := true,
                     gameAnswer := Int.floor (env.gameRand * 100) + 1 }
  let st' := putUser st uid u'
  (st', [.writeUsers st'.users, .reply .gameWelcome])

/-- `handleGameInput`: exit keyword, then guess comparison. -/
def handleGameInput (st : BotState) (uid : String) (u : User)
    (input : String) : BotState × List Action :=
  if jsTrim (jsToLower input) = "/exitgame" then
    let u' := { u with inGame := false }
    let st' := putUser st uid u'
    (st', [.writeUsers st'.users, .reply .gameExited, .reply (.menu u'.isAdmin)])
  else
    match jsParseInt input with
    | none => (st, [.reply .invalidNumber])
    | some guess =>
      if guess < u.gameAnswer then (st, [.reply .tooLow])
      else if guess > u.gameAnswer then (st, [.reply .tooHigh])
      else
        let u' := { u with balance := u.balance + 250, inGame := false }
        let st' := putUser st uid u'
        (st', [.writeUsers st'.users,
               .reply (.gameWin u'.gameAnswer 250 u'.balance),
               .reply (.menu u'.isAdmin)])

/-- `handleClaim`: refuse when already claimed today, otherwise issue a claim
captcha challenge and flush. -/
def handleClaim (st : BotState) (uid : String) (u : User) (env : Env) :
    BotState × List Action :=
  if u.claimedDailyBonus then (st, [.reply .alreadyClaimed])
  else
    let token := generateCaptcha env
    let u' := { u with captchaState := .claimWait token }
    let st' := putUser st uid u'
    (st', [.writeUsers st'.users, .reply (.claimCaptchaPrompt token)])

/-- `handleListAvailableTasks`. -/
def handleListAvailableTasks (st : BotState) (u : User) :
    BotState × List Action :=
  let avail := st.tasks.filter (fun t => !(u.completedTasksToday.contains t.id))
  if avail = [] then (st, [.reply .noTasksAvailable])
  else (st, [.reply (.availableTasks avail)])

/-- `handleSelesai`: validate the task id, issue a task captcha challenge and
schedule its deadline timer.  The challenge captures the task record itself. -/
def handleSelesai (st : BotState) (uid : String) (u : User)
    (arg : Option String) (env : Env) : BotState × List Action :=
  match jsParseIntOpt arg with
  | none => (st, [.reply .invalidTaskId])
  | some taskId =>
    match st.tasks.find? (fun t => t.id == taskId) with
    | none => (st, [.reply .taskNotFound])
    | some task =>
      if u.completedTasksToday.contains taskId then
        (st, [.reply .taskAlreadyDone])
      else
        let token := generateCaptcha env
        let u' := { u with captchaState := .taskWait task token env.timerId }
        let st' := putUser st uid u'
        (st', [.setTimer env.timerId (task.duration * 60 * 1000),
               .writeUsers st'.users,
               .reply (.taskCaptchaPrompt token task.duration)])

/-- The deadline callback scheduled by `handleSelesai` for `taskId`: it only
mutates when the user still has a waiting challenge whose captured task id
matches the id this timer was created for. -/
def selesaiTimeout (st : BotState) (uid : String) (taskId : Int) :
    BotState × List Action :=
  match lookupU st.users uid with
  | none => (st, [])
  | some cu =>
    if cu.captchaState.isWaiting ∧
        cu.captchaState.taskRef.map Task.id = some taskId then
      let u' := { cu with captchaState := .notWaiting }
      let st' := putUser st uid u'
      (st', [.writeUsers st'.users, .reply .timeExpired])
    else (st, [])

/-- `verifyCaptcha`: cancel any pending timer, clear the challenge, then
compare the trimmed upper-cased input against the stored answer and credit on
a match. -/
def verifyCaptcha (st : BotState) (uid : String) (u : User)
    (userInput : String) (env : Env) : BotState × List Action :=
  let cs := u.captchaState
  let cancelActs : List Action :=
    match cs.timerRef with
    | some tid => [.cancelTimer tid]
    | none => []
  let u1 := { u with captchaState := .notWaiting }
  if some (jsToUpper (jsTrim userInput)) = cs.answer then
    match cs with
    | .taskWait task _ _ =>
      let u2 := { u1 with balance := u1.balance + task.bonus,
                          completedTasksToday :=
                            u1.completedTasksToday ++ [task.id] }
      let st2 := putUser st uid u2
      (st2, cancelActs ++
        [.reply .captchaCorrect, .writeUsers st2.users,
         .reply (.taskRewardMsg task.bonus u2.balance),
         .writeUsers st2.users, .reply (.menu u2.isAdmin)])
    | .claimWait _ =>
      let reward := Int.floor (env.bonusRand *
          ((st.config.dailyBonusMax - st.config.dailyBonusMin + 1 : Int) : ℚ))
        + st.config.dailyBonusMin
      let u2 := { u1 with balance := u1.balance + reward,
                          claimedDailyBonus := true }
      let st2 := putUser st uid u2
      (st2, cancelActs ++
        [.reply .captchaCorrect, .writeUsers st2.users,
         .reply (.claimRewardMsg reward u2.balance),
         .writeUsers st2.users, .reply (.menu u2.isAdmin)])
    | .notWaiting =>
      let st1 := putUser st uid u1
      (st1, cancelActs ++
        [.reply .captchaCorrect, .writeUsers st1.users,
         .reply (.menu u1.isAdmin)])
  else
    let st1 := putUser st uid u1
    (st1, cancelActs ++
      [.reply .captchaWrong, .writeUsers st1.users,
       .reply (.menu u1.isAdmin)])

/-- `handleLoginAdmin`. -/
def handleLoginAdmin (st : BotState) (uid : String) (u : User)
    (password : Option String) : BotState × List Action :=
  if password = some st.config.adminPassword then
    let u' := { u with isAdmin := true }
    let st' := putUser st uid u'
    (st', [.writeUsers st'.users, .reply .adminLoginOk])
  else (st, [.reply .adminLoginFail])

/-- `handleListUsers`. -/
def handleListUsers (st : BotState) (u : User) : BotState × List Action :=
  if !u.isAdmin then (st, [.reply .adminOnly])
  else (st, [.reply (.userListMsg st.users)])

/-- `userIdTo… .endsWith('@c.us') ? … : …@c.us`. -/
def targetOf (a : String) : String :=
  if strEndsWith a "@c.us" then a else a ++ "@c.us"

/-- `handleBlockUser` (a missing argument makes the JS throw). -/
def handleBlockUser (st : BotState) (u : User) (arg : Option String) :
    BotState × List Action :=
  if !u.isAdmin then (st, [.reply .adminOnly])
  else
    match arg with
    | none => (st, [.jsError])
    | some a =>
      let target := targetOf a
      match lookupU st.users target with
      | some v =>
        let v' := { v with isBlocked := true }
        let st' := { st with users := setU st.users target v' }
        (st', [.writeUsers st'.users, .reply (.userBlocked target)])
      | none => (st, [.reply (.userNotFound target)])

/-- `handleUnblockUser`. -/
def handleUnblockUser (st : BotState) (u : User) (arg : Option String) :
    BotState × List Action :=
  if !u.isAdmin then (st, [.reply .adminOnly])
  else
    match arg with
    | none => (st, [.jsError])
    | some a =>
      let target := targetOf a
      match lookupU st.users target with
      | some v =>
        let v' := { v with isBlocked := false }
        let st' := { st with users := setU st.users target v' }
        (st', [.writeUsers st'.users, .reply (.userUnblocked target)])
      | none => (st, [.reply (.userNotFound target)])

/-- `handleDeleteUser`. -/
def handleDeleteUser (st : BotState) (u : User) (arg : Option String) :
    BotState × List Action :=
  if !u.isAdmin then (st, [.reply .adminOnly])
  else
    match arg with
    | none => (st, [.jsError])
    | some a =>
      let target := targetOf a
      match lookupU st.users target with
      | some _ =>
        let st' := { st with users := delU st.users target }
        (st', [.writeUsers st'.users, .reply (.userDeleted target)])
      | none => (st, [.reply (.userNotFound target)])

/-- `Math.max(...tasks.map(t => t.id))` for a nonempty catalog. -/
def maxTaskId : List Task → Int
  | [] => 0
  | t :: ts => ts.foldl (fun m x => max m x.id) t.id

/-- `handleAddTugas`: validate, then append a task whose id is `1` on an empty
catalog and `max(existing ids) + 1` otherwise. -/
def handleAddTugas (st : BotState) (u : User)
    (bonusStr durationStr : Option String) (description : String) :
    BotState × List Action :=
  if !u.isAdmin then (st, [.reply .adminOnly])
  else
    match jsParseIntOpt bonusStr, jsParseIntOpt durationStr with
    | some bonus, some duration =>
      if description = "" ∨ duration ≤ 0 then (st, [.reply .addTugasUsage])
      else
        let newId := if st.tasks.length > 0 then maxTaskId st.tasks + 1 else 1
        let tasks' := st.tasks ++
          [{ id := newId, bonus := bonus, duration := duration,
             description := description }]
        let st' := { st with tasks := tasks' }
        (st', [.writeTasks tasks', .reply (.taskAdded newId)])
    | _, _ => (st, [.reply .addTugasUsage])

/-- `handleListAllTasks`. -/
def handleListAllTasks (st : BotState) (u : User) : BotState × List Action :=
  if !u.isAdmin then (st, [.reply .adminOnly])
  else if st.tasks = [] then (st, [.reply .noTasksYet])
  else (st, [.reply (.allTasks st.tasks)])

/-- `tasks.splice(index, 1)`: drop the first task with this id. -/
def removeFirstTask : List Task → Int → List Task
  | [], _ => []
  | t :: ts, tid => if t.id = tid then ts else t :: removeFirstTask ts tid

/-- `handleDeleteTask`. -/
def handleDeleteTask (st : BotState) (u : User) (arg : Option String) :
    BotState × List Action :=
  if !u.isAdmin then (st, [.reply .adminOnly])
  else
    match jsParseIntOpt arg with
    | none => (st, [.reply .taskNotFound])
    | some tid =>
      if st.tasks.any (fun t => t.id == tid) then
        let tasks' := removeFirstTask st.tasks tid
        ({ st with tasks := tasks' },
         [.writeTasks tasks', .reply (.taskDeleted tid)])
      else (st, [.reply .taskNotFound])

/-- `handleSetBonus`. -/
def handleSetBonus (st : BotState) (u : User) (minStr maxStr : Option String) :
    BotState × List Action :=
  if !u.isAdmin then (st, [.reply .adminOnly])
  else
    match jsParseIntOpt minStr, jsParseIntOpt maxStr with
    | some lo, some hi =>
      if lo > hi then (st, [.reply .setBonusUsage])
      else
        let cfg := { st.config with dailyBonusMin := lo, dailyBonusMax := hi }
        ({ st with config := cfg },
         [.writeConfig cfg, .reply (.bonusSet lo hi)])
    | _, _ => (st, [.reply .setBonusUsage])

/-- `handleImageGeneration` (the AI backend is an external collaborator). -/
def handleImageGeneration (st : BotState) (prompt : String) :
    BotState × List Action :=
  if prompt = "" then (st, [.reply .imageUsage])
  else (st, [.reply .imageWorking, .genImage prompt])

/-- `handleVideoGeneration`. -/
def handleVideoGeneration (st : BotState) (prompt : String) :
    BotState × List Action :=
  if prompt = "" then (st, [.reply .videoUsage])
  else (st, [.reply .videoWorking, .genVideo prompt])

/-- The command switch of `handleMessage`, reached only when the user is
neither waiting on a captcha nor in the game. -/
def dispatchCommand (st : BotState) (uid : String) (u : User) (body : String)
    (env : Env) : BotState × List Action :=
  let command := jsTrim (jsToLower body)
  let args := (jsSplitSpace (jsTrim body)).drop 1
  let commandName := (jsSplitSpace command).headD ""
  if !(strStartsWith command "/") then (st, [.aiChat body])
  else if commandName = "/menu" then (st, [.reply (.menu u.isAdmin)])
  else if commandName = "/saldo" then (st, [.reply (.saldo u.balance)])
  else if commandName = "/owner" then (st, [.reply .ownerContact])
  else if commandName = "/klaim" then handleClaim st uid u env
  else if commandName = "/tugas" then handleListAvailableTasks st u
  else if commandName = "/selesai" then handleSelesai st uid u (args.get? 0) env
  else if commandName = "/gambar" then
    handleImageGeneration st (jsJoinSpace args)
  else if commandName = "/video" then
    handleVideoGeneration st (jsJoinSpace args)
  else if commandName = "/game" then startGame st uid u env
  else if commandName = "/loginadmin" then
    handleLoginAdmin st uid u (args.get? 0)
  else if commandName = "/clear" then
    (st, [.clearChat uid, .reply .chatCleared])
  else if commandName = "/listusers" then handleListUsers st u
  else if commandName = "/blockuser" then handleBlockUser st u (args.get? 0)
  else if commandName = "/unblockuser" then handleUnblockUser st u (args.get? 0)
  else if commandName = "/deleteuser" then handleDeleteUser st u (args.get? 0)
  else if commandName = "/addtugas" then
    handleAddTugas st u (args.get? 0) (args.get? 1) (jsJoinSpace (args.drop 2))
  else if commandName = "/listtugas" then handleListAllTasks st u
  else if commandName = "/hapustugas" then handleDeleteTask st u (args.get? 0)
  else if commandName = "/setbonus" then
    handleSetBonus st u (args.get? 0) (args.get? 1)
  else (st, [.aiUnknownCommand body])

/-- The mode-specific phase of `handleMessage`, run after the blocked check
and the daily reset: a waiting captcha intercepts the message, then a running
game, and only an idle user reaches the command switch. -/
def processEvent (st : BotState) (uid : String) (u : User) (body : String)
    (env : Env) : BotState × List Action :=
  if u.captchaState.isWaiting then verifyCaptcha st uid u body env
  else if u.inGame then handleGameInput st uid u body
  else dispatchCommand st uid u body env

/-- `handleMessage`: create a missing record, drop blocked users, apply the
daily reset, then hand over to the mode-specific phase. -/
def handleMessage (st : BotState) (uid : String) (body : String) (env : Env) :
    BotState × List Action :=
  let (st0, u0, acts0) :=
    match lookupU st.users uid with
    | some u => (st, u, ([] : List Action))
    | none =>
      let u := freshUser env.today
      let st1 := putUser st uid u
      (st1, u, [Action.writeUsers st1.users, Action.reply .welcome])
  if u0.isBlocked then (st0, acts0)
  else
    let (st1, u1) :=
      if u0.lastLogin = env.today then (st0, u0)
      else
        let u' := rolloverUser u0 env.today
        (putUser st0 uid u', u')
    let (st2, acts) := processEvent st1 uid u1 body env
    (st2, acts0 ++ acts)

/-- The spec's session modes. -/
inductive Mode where
  | idle
  | awaitingVerification
  | inGame
deriving Repr, DecidableEq

/-- The spec's mode abstraction over the code's two flags: a waiting captcha
takes precedence (it is checked first by `handleMessage`), then the game. -/
def modeOf (u : User) : Mode :=
  if u.captchaState.isWaiting then .awaitingVerification
  else if u.inGame then .inGame
  else .idle

/-- The spec's `pendingChallenge` field: the challenge data, present exactly
when the captcha state is a waiting one. -/
def pendingChallenge (u : User) : Option CaptchaState :=
  if u.captchaState.isWaiting then some u.captchaState else none

/-- The spec's `gameTarget` field: the stored answer, read only in game. -/
def gameTarget (u : User) : Option Int :=
  if u.inGame then some u.gameAnswer else none

/-- A user record is never simultaneously waiting on a captcha and in the
game: the two flags are mutually exclusive. -/
def UserInv (u : User) : Prop :=
  ¬(u.captchaState.isWaiting = true ∧ u.inGame = true)

instance : DecidablePred UserInv := fun u => by
  unfold UserInv; infer_instance

/-- Every stored user record satisfies the flag exclusivity. -/
def StInv (st : BotState) : Prop := ∀ p ∈ st.users, UserInv p.2

instance : DecidablePred StInv := fun st => by
  unfold StInv; infer_instance

theorem toNat_ofNat_isValid (n : Nat) (h : n.isValidChar) :
    (Char.ofNat n).toNat = n := by
  simp [Char.ofNat, h, Char.ofNatAux, Char.toNat, UInt32.toNat,
    BitVec.toNat_ofNatLt]

theorem upChar_idem (c : Char) : upChar (upChar c) = upChar c := by
  unfold upChar
  split_ifs with h1 h2
  · exfalso
    rw [toNat_ofNat_isValid (c.toNat - 32) (Or.inl (by omega))] at h2
    omega
  · rfl
  · rfl

theorem jsToUpper_idem (s : String) : jsToUpper (jsToUpper s) = jsToUpper s := by
  simp [jsToUpper, List.map_map, Function.comp_def, upChar_idem]

theorem lookupU_setU_self (l : Users) (uid : String) (u : User) :
    lookupU (setU l uid u) uid = some u := by
  induction l with
  | nil => simp [setU, lookupU]
  | cons p rest ih =>
    obtain ⟨k, v⟩ := p
    by_cases h : k = uid <;> simp [setU, lookupU, h, ih]

theorem mem_setU {l : Users} {uid : String} {u : User} {p : String × User}
    (hp : p ∈ setU l uid u) : p = (uid, u) ∨ p ∈ l := by
  induction l with
  | nil => simpa [setU] using hp
  | cons q rest ih =>
    obtain ⟨k, v⟩ := q
    by_cases h : k = uid
    · rw [setU, if_pos h] at hp
      rcases List.mem_cons.mp hp with h1 | h1
      · exact Or.inl (by rw [h1, h])
      · exact Or.inr (List.mem_cons_of_mem _ h1)
    · rw [setU, if_neg h] at hp
      rcases List.mem_cons.mp hp with h1 | h1
      · exact Or.inr (by rw [h1]; exact List.mem_cons_self _ _)
      · rcases ih h1 with h2 | h2
        · exact Or.inl h2
        · exact Or.inr (List.mem_cons_of_mem _ h2)

theorem mem_delU {l : Users} {uid : String} {p : String × User}
    (hp : p ∈ delU l uid) : p ∈ l := by
  induction l with
  | nil => simp [delU] at hp
  | cons q rest ih =>
    obtain ⟨k, v⟩ := q
    by_cases h : k = uid
    · rw [delU, if_pos h] at hp
      exact List.mem_cons_of_mem _ hp
    · rw [delU, if_neg h] at hp
      rcases List.mem_cons.mp hp with h1 | h1
      · exact h1 ▸ List.mem_cons_self _ _
      · exact List.mem_cons_of_mem _ (ih h1)

theorem lookupU_mem {l : Users} {uid : String} {u : User}
    (h : lookupU l uid = some u) : (uid, u) ∈ l := by
  induction l with
  | nil => simp [lookupU] at h
  | cons q rest ih =>
    obtain ⟨k, v⟩ := q
    by_cases hk : k = uid
    · rw [lookupU, if_pos hk] at h
      obtain rfl : v = u := by injection h
      exact hk ▸ List.mem_cons_self _ _
    · rw [lookupU, if_neg hk] at h
      exact List.mem_cons_of_mem _ (ih h)

theorem stInv_putUser {st : BotState} {uid : String} {u : User}
    (h : StInv st) (hu : UserInv u) : StInv (putUser st uid u) := by
  intro p hp
  rcases mem_setU hp with h1 | h1
  · rw [h1]; exact hu
  · exact h p h1

theorem stInv_lookup {st : BotState} {uid : String} {u : User}
    (h : StInv st) (hl : lookupU st.users uid = some u) : UserInv u :=
  h (uid, u) (lookupU_mem hl)

theorem stInv_verifyCaptcha {st : BotState} {uid : String} {u : User}
    {input : String} {env : Env} (h : StInv st) :
    StInv (verifyCaptcha st uid u input env).1 := by
  unfold verifyCaptcha
  rcases hc : u.captchaState with _ | a | ⟨t, a, tid⟩ <;>
    simp only [hc] <;> split_ifs <;>
    exact stInv_putUser h (by simp [UserInv, CaptchaState.isWaiting])

theorem stInv_handleGameInput {st : BotState} {uid : String} {u : User}
    {input : String} (h : StInv st) (hw : u.captchaState.isWaiting = false) :
    StInv (handleGameInput st uid u input).1 := by
  unfold handleGameInput
  repeat' split
  all_goals first
    | exact h
    | exact stInv_putUser h (by simp [UserInv, hw])

theorem stInv_startGame {st : BotState} {uid : String} {u : User} {env : Env}
    (h : StInv st) (hw : u.captchaState.isWaiting = false) :
    StInv (startGame st uid u env).1 :=
  stInv_putUser h (by simp [UserInv, hw])

theorem stInv_handleClaim {st : BotState} {uid : String} {u : User}
    {env : Env} (h : StInv st) (hg : u.inGame = false) :
    StInv (handleClaim st uid u env).1 := by
  unfold handleClaim
  split_ifs
  · exact h
  · exact stInv_putUser h (by simp [UserInv, hg])

theorem stInv_handleSelesai {st : BotState} {uid : String} {u : User}
    {arg : Option String} {env : Env} (h : StInv st) (hg : u.inGame = false) :
    StInv (handleSelesai st uid u arg env).1 := by
  unfold handleSelesai
  repeat' split
  all_goals first
    | exact h
    | exact stInv_putUser h (by simp [UserInv, CaptchaState.isWaiting, hg])

theorem stInv_selesaiTimeout {st : BotState} {uid : String} {taskId : Int}
    (h : StInv st) : StInv (selesaiTimeout st uid taskId).1 := by
  unfold selesaiTimeout
  repeat' split
  all_goals first
    | exact h
    | exact stInv_putUser h (by simp [UserInv, CaptchaState.isWaiting])

theorem stInv_handleLoginAdmin {st : BotState} {uid : String} {u : User}
    {password : Option String} (h : StInv st) (hu : UserInv u) :
    StInv (handleLoginAdmin st uid u password).1 := by
  unfold handleLoginAdmin
  split_ifs
  · exact stInv_putUser h (by simpa [UserInv] using hu)
  · exact h

theorem stInv_handleBlockUser {st : BotState} {u : User} {arg : Option String}
    (h : StInv st) : StInv (handleBlockUser st u arg).1 := by
  unfold handleBlockUser
  split_ifs
  · exact h
  · rcases arg with _ | a
    · exact h
    · dsimp only
      rcases hv : lookupU st.users (targetOf a) with _ | v
      · exact h
      · dsimp only
        intro p hp
        rcases mem_setU hp with h1 | h1
        · rw [h1]
          simpa [UserInv] using stInv_lookup h hv
        · exact h p h1

theorem stInv_handleUnblockUser {st : BotState} {u : User}
    {arg : Option String} (h : StInv st) :
    StInv (handleUnblockUser st u arg).1 := by
  unfold handleUnblockUser
  split_ifs
  · exact h
  · rcases arg with _ | a
    · exact h
    · dsimp only
      rcases hv : lookupU st.users (targetOf a) with _ | v
      · exact h
      · dsimp only
        intro p hp
        rcases mem_setU hp with h1 | h1
        · rw [h1]
          simpa [UserInv] using stInv_lookup h hv
        · exact h p h1

theorem stInv_handleDeleteUser {st : BotState} {u : User}
    {arg : Option String} (h : StInv st) :
    StInv (handleDeleteUser st u arg).1 := by
  unfold handleDeleteUser
  split_ifs
  · exact h
  · rcases arg with _ | a
    · exact h
    · dsimp only
      rcases lookupU st.users (targetOf a) with _ | v
      · exact h
      · exact fun p hp => h p (mem_delU hp)

theorem stInv_handleListAvailableTasks {st : BotState} {u : User}
    (h : StInv st) : StInv (handleListAvailableTasks st u).1 := by
  unfold handleListAvailableTasks
  dsimp only
  repeat' split
  all_goals exact h

theorem stInv_handleListUsers {st : BotState} {u : User} (h : StInv st) :
    StInv (handleListUsers st u).1 := by
  unfold handleListUsers
  repeat' split
  all_goals exact h

theorem stInv_handleAddTugas {st : BotState} {u : User}
    {a b : Option String} {d : String} (h : StInv st) :
    StInv (handleAddTugas st u a b d).1 := by
  unfold handleAddTugas
  dsimp only
  repeat' split
  all_goals exact h

theorem stInv_handleListAllTasks {st : BotState} {u : User} (h : StInv st) :
    StInv (handleListAllTasks st u).1 := by
  unfold handleListAllTasks
  repeat' split
  all_goals exact h

theorem stInv_handleDeleteTask {st : BotState} {u : User} {a : Option String}
    (h : StInv st) : StInv (handleDeleteTask st u a).1 := by
  unfold handleDeleteTask
  dsimp only
  repeat' split
  all_goals exact h

theorem stInv_handleSetBonus {st : BotState} {u : User}
    {a b : Option String} (h : StInv st) :
    StInv (handleSetBonus st u a b).1 := by
  unfold handleSetBonus
  dsimp only
  repeat' split
  all_goals exact h

theorem stInv_handleImageGeneration {st : BotState} {p : String}
    (h : StInv st) : StInv (handleImageGeneration st p).1 := by
  unfold handleImageGeneration
  repeat' split
  all_goals exact h

theorem stInv_handleVideoGeneration {st : BotState} {p : String}
    (h : StInv st) : StInv (handleVideoGeneration st p).1 := by
  unfold handleVideoGeneration
  repeat' split
  all_goals exact h

theorem stInv_ite {c : Prop} [Decidable c] {a b : BotState × List Action}
    (ha : StInv a.1) (hb : StInv b.1) : StInv (ite c a b).1 := by
  by_cases h : c
  · rwa [if_pos h]
  · rwa [if_neg h]

theorem stInv_dispatchCommand {st : BotState} {uid : String} {u : User}
    {body : String} {env : Env} (h : StInv st)
    (hw : u.captchaState.isWaiting = false) (hg : u.inGame = false) :
    StInv (dispatchCommand st uid u body env).1 := by
  unfold dispatchCommand
  dsimp only
  exact stInv_ite h (stInv_ite h (stInv_ite h (stInv_ite h (stInv_ite
    (stInv_handleClaim h hg) (stInv_ite (stInv_handleListAvailableTasks h)
    (stInv_ite (stInv_handleSelesai h hg) (stInv_ite
    (stInv_handleImageGeneration h) (stInv_ite (stInv_handleVideoGeneration h)
    (stInv_ite (stInv_startGame h hw) (stInv_ite
    (stInv_handleLoginAdmin h (by simp [UserInv, hw])) (stInv_ite h
    (stInv_ite (stInv_handleListUsers h) (stInv_ite (stInv_handleBlockUser h)
    (stInv_ite (stInv_handleUnblockUser h) (stInv_ite
    (stInv_handleDeleteUser h) (stInv_ite (stInv_handleAddTugas h)
    (stInv_ite (stInv_handleListAllTasks h) (stInv_ite
    (stInv_handleDeleteTask h) (stInv_ite (stInv_handleSetBonus h)
    h)))))))))))))))))))

theorem stInv_processEvent {st : BotState} {uid : String} {u : User}
    {body : String} {env : Env} (h : StInv st) :
    StInv (processEvent st uid u body env).1 := by
  unfold processEvent
  split_ifs with h1 h2
  · exact stInv_verifyCaptcha h
  · exact stInv_handleGameInput h (by simpa using h1)
  · exact stInv_dispatchCommand h (by simpa using h1) (by simpa using h2)

theorem userInv_rollover {u : User} (hu : UserInv u) (today : String) :
    UserInv (rolloverUser u today) := by
  simpa [UserInv, rolloverUser] using hu

theorem stInv_handleMessage {st : BotState} {uid : String} {body : String}
    {env : Env} (h : StInv st) : StInv (handleMessage st uid body env).1 := by
  unfold handleMessage
  have hfresh : UserInv (freshUser env.today) := by
    simp [UserInv, freshUser, CaptchaState.isWaiting]
  rcases hu : lookupU st.users uid with _ | u
  · simp only [hu]
    split_ifs
    · exact stInv_putUser h hfresh
    · exact stInv_processEvent (stInv_putUser h hfresh)
    · exact stInv_processEvent
        (stInv_putUser (stInv_putUser h hfresh)
          (userInv_rollover hfresh env.today))
  · simp only [hu]
    split_ifs
    · exact h
    · exact stInv_processEvent h
    · exact stInv_processEvent
        (stInv_putUser h (userInv_rollover (stInv_lookup h hu) env.today))

/-- Every exit of `verifyCaptcha` commits a record whose challenge is
cleared, with the blocked flag, date and game flag untouched, and the
committed record store written. -/
theorem verifyCaptcha_clears (st : BotState) (uid : String) (u : User)
    (input : String) (env : Env) :
    ∃ w : User, (verifyCaptcha st uid u input env).1 = putUser st uid w ∧
      w.captchaState = .notWaiting ∧ w.isBlocked = u.isBlocked ∧
      w.lastLogin = u.lastLogin ∧ w.inGame = u.inGame ∧
      Action.writeUsers (putUser st uid w).users
        ∈ (verifyCaptcha st uid u input env).2 := by
  unfold verifyCaptcha
  rcases hc : u.captchaState with _ | a | ⟨t, a, tmr⟩ <;> simp only [hc] <;>
    split_ifs <;> exact ⟨_, rfl, rfl, rfl, rfl, rfl, by simp⟩

/-- The deadline callback is a no-op when the user is not waiting. -/
theorem selesaiTimeout_of_notWaiting {st : BotState} {uid : String}
    {u : User} {taskId : Int} (hlk : lookupU st.users uid = some u)
    (hw : u.captchaState.isWaiting = false) :
    selesaiTimeout st uid taskId = (st, []) := by
  unfold selesaiTimeout
  rw [hlk]
  exact if_neg (by simp [hw])

/-- Sanity: the fixture state and environment used by the witnesses. -/
def cfg0 : Config :=
  { adminPassword := "admin123", dailyBonusMin := 100, dailyBonusMax := 500 }

def env0 : Env :=
  { today := "Mon Oct 06 2025", rawToken := "a1b2c3", bonusRand := 0,
    gameRand := 0, timerId := 7 }

def task0 : Task := { id := 1, bonus := 150, duration := 5, description := "desc" }

def st0 : BotState := { users := [], tasks := [task0], config := cfg0 }

def uIdle : User := freshUser "Mon Oct 06 2025"

def uTaskWait : User :=
  { uIdle with captchaState := .taskWait task0 "A1B2C3" 7 }

def stTaskWait : BotState := { st0 with users := [("u", uTaskWait)] }

def stIdle : BotState := { st0 with users := [("u", uIdle)] }

/-- C1: for every reachable user record, `pendingChallenge` is present if and
only if the mode is `awaitingVerification`, `gameTarget` is present if and
only if the mode is `inGame`, and the user is in exactly one of the three
modes at a time; every operation (message handling including claim, task
start, captcha resolution, game entry and exit, and the admin commands, plus
the deadline callback) preserves the underlying flag exclusivity. -/
theorem C1_mode_invariant :
    (∀ st uid body env, StInv st → StInv (handleMessage st uid body env).1) ∧
    (∀ st uid taskId, StInv st → StInv (selesaiTimeout st uid taskId).1) ∧
    (∀ u : User, UserInv u →
      (((pendingChallenge u).isSome ↔ modeOf u = .awaitingVerification) ∧
       ((gameTarget u).isSome ↔ modeOf u = .inGame) ∧
       (modeOf u = .idle ∨ modeOf u = .awaitingVerification ∨
        modeOf u = .inGame))) := by
  refine ⟨fun st uid body env h => stInv_handleMessage h,
          fun st uid tid h => stInv_selesaiTimeout h, fun u hu => ?_⟩
  by_cases hw : u.captchaState.isWaiting = true
  · have hg : u.inGame = false := by
      by_contra hng
      exact hu ⟨hw, by simpa using hng⟩
    simp [pendingChallenge, gameTarget, modeOf, hw, hg]
  · by_cases hg : u.inGame = true <;>
      simp [pendingChallenge, gameTarget, modeOf, hw, hg]

theorem C1_mode_invariant_witness :
    StInv (handleMessage st0 "u" "/klaim" env0).1 ∧
    StInv (selesaiTimeout stTaskWait "u" 1).1 ∧
    ((pendingChallenge uTaskWait).isSome ↔
      modeOf uTaskWait = .awaitingVerification) :=
  ⟨C1_mode_invariant.1 st0 "u" "/klaim" env0 (by decide),
   C1_mode_invariant.2.1 stTaskWait "u" 1 (by decide),
   (C1_mode_invariant.2.2 uTaskWait (by decide)).1⟩

/-- The command phase forwards a non-command message to the AI collaborator
and changes nothing. -/
theorem dispatchCommand_nonCommand {st : BotState} {uid body : String}
    {u : User} {env : Env}
    (h : strStartsWith (jsTrim (jsToLower body)) "/" = false) :
    dispatchCommand st uid u body env = (st, [.aiChat body]) := by
  unfold dispatchCommand
  exact if_pos (by simp [h])

/-- `handleMessage` for an existing, unblocked, same-day, idle user is
exactly the command phase. -/
theorem handleMessage_existing_idle {st : BotState} {uid body : String}
    {env : Env} {u : User} (hlk : lookupU st.users uid = some u)
    (hb : u.isBlocked = false) (hd : u.lastLogin = env.today)
    (hw : u.captchaState.isWaiting = false) (hg : u.inGame = false) :
    handleMessage st uid body env = dispatchCommand st uid u body env := by
  unfold handleMessage
  simp only [hlk]
  rw [if_neg (by simp [hb]), if_pos hd]
  unfold processEvent
  rw [if_neg (by simp [hw]), if_neg (by simp [hg])]
  simp

/-- C2: resolution of a pending task challenge is mutually exclusive.  After
an inbound answer resolves the challenge the deadline callback is a no-op;
the callback mutates state only while the user is still waiting and the
pending challenge's captured task id matches the one the timer was created
for; the answer path cancels the timer first (the cancellation is the first
recorded effect); when the callback does fire it clears the challenge; and a
message arriving after the challenge is cleared goes to ordinary command
dispatch, not to captcha resolution. -/
theorem C2_resolution_mutually_exclusive :
    (∀ st uid u input env taskId,
      selesaiTimeout (verifyCaptcha st uid u input env).1 uid taskId
        = ((verifyCaptcha st uid u input env).1, [])) ∧
    (∀ st uid u taskId, lookupU st.users uid = some u →
      ¬(u.captchaState.isWaiting = true ∧
        u.captchaState.taskRef.map Task.id = some taskId) →
      selesaiTimeout st uid taskId = (st, [])) ∧
    (∀ st uid u input env task ans tmr,
      u.captchaState = .taskWait task ans tmr →
      (verifyCaptcha st uid u input env).2.head? = some (.cancelTimer tmr)) ∧
    (∀ st uid u taskId, lookupU st.users uid = some u →
      u.captchaState.isWaiting = true →
      u.captchaState.taskRef.map Task.id = some taskId →
      selesaiTimeout st uid taskId
        = (putUser st uid { u with captchaState := .notWaiting },
           [.writeUsers (putUser st uid
              { u with captchaState := .notWaiting }).users,
            .reply .timeExpired])) ∧
    (∀ st uid body env u, lookupU st.users uid = some u →
      u.isBlocked = false → u.lastLogin = env.today →
      u.captchaState.isWaiting = false → u.inGame = false →
      strStartsWith (jsTrim (jsToLower body)) "/" = false →
      handleMessage st uid body env = (st, [.aiChat body])) := by
  refine ⟨?_, ?_, ?_, ?_, ?_⟩
  · intro st uid u input env taskId
    obtain ⟨w, hw1, hw2, -, -, -, -⟩ := verifyCaptcha_clears st uid u input env
    rw [hw1]
    exact selesaiTimeout_of_notWaiting (lookupU_setU_self _ _ _)
      (by rw [hw2]; rfl)
  · intro st uid u taskId hlk hno
    unfold selesaiTimeout
    rw [hlk]
    exact if_neg hno
  · intro st uid u input env task ans tmr hc
    unfold verifyCaptcha
    simp only [hc]
    split_ifs <;> rfl
  · intro st uid u taskId hlk hw ht
    unfold selesaiTimeout
    rw [hlk]
    exact if_pos ⟨hw, ht⟩
  · intro st uid body env u hlk hb hd hw hg hcmd
    rw [handleMessage_existing_idle hlk hb hd hw hg,
      dispatchCommand_nonCommand hcmd]

theorem C2_resolution_mutually_exclusive_witness :
    selesaiTimeout (verifyCaptcha stTaskWait "u" uTaskWait "a1b2c3" env0).1
        "u" 1 = ((verifyCaptcha stTaskWait "u" uTaskWait "a1b2c3" env0).1, []) ∧
    (verifyCaptcha stTaskWait "u" uTaskWait "xyz" env0).2.head?
        = some (.cancelTimer 7) ∧
    handleMessage stIdle "u" "halo" env0 = (stIdle, [.aiChat "halo"]) := by
  refine ⟨C2_resolution_mutually_exclusive.1 stTaskWait "u" uTaskWait
      "a1b2c3" env0 1,
    C2_resolution_mutually_exclusive.2.2.1 stTaskWait "u" uTaskWait "xyz"
      env0 task0 "A1B2C3" 7 (by decide), ?_⟩
  have h0 : lookupU stIdle.users "u" = some uIdle := by decide
  exact C2_resolution_mutually_exclusive.2.2.2.2 stIdle "u" "halo" env0 uIdle
    h0 (by decide) (by decide) (by decide) (by decide) (by decide)

/-- A mismatching (or absent) answer consumes the challenge without credit. -/
theorem verifyCaptcha_mismatch {st : BotState} {uid : String} {u : User}
    {input : String} {env : Env}
    (hne : some (jsToUpper (jsTrim input)) ≠ u.captchaState.answer) :
    verifyCaptcha st uid u input env
      = (putUser st uid { u with captchaState := .notWaiting },
         (match u.captchaState.timerRef with
          | some tmr => [Action.cancelTimer tmr]
          | none => []) ++
         [.reply .captchaWrong,
          .writeUsers (putUser st uid
            { u with captchaState := .notWaiting }).users,
          .reply (.menu u.isAdmin)]) := by
  unfold verifyCaptcha
  dsimp only
  rw [if_neg hne]

/-- A matching answer to a task challenge credits the captured task's reward
and records the captured task id, independently of the catalog. -/
theorem verifyCaptcha_task_match {st : BotState} {uid : String} {u : User}
    {input : String} {env : Env} {t : Task} {a : String} {tmr : Nat}
    (hc : u.captchaState = .taskWait t a tmr)
    (hm : jsToUpper (jsTrim input) = a) :
    verifyCaptcha st uid u input env
      = (putUser st uid
          { u with captchaState := .notWaiting,
                   balance := u.balance + t.bonus,
                   completedTasksToday := u.completedTasksToday ++ [t.id] },
         [.cancelTimer tmr, .reply .captchaCorrect,
          .writeUsers (putUser st uid
            { u with captchaState := .notWaiting,
                     balance := u.balance + t.bonus,
                     completedTasksToday :=
                       u.completedTasksToday ++ [t.id] }).users,
          .reply (.taskRewardMsg t.bonus (u.balance + t.bonus)),
          .writeUsers (putUser st uid
            { u with captchaState := .notWaiting,
                     balance := u.balance + t.bonus,
                     completedTasksToday :=
                       u.completedTasksToday ++ [t.id] }).users,
          .reply (.menu u.isAdmin)]) := by
  unfold verifyCaptcha
  simp only [hc]
  rw [if_pos (by simp [CaptchaState.answer, hm])]
  rfl

/-- A matching answer to a claim challenge credits the drawn bonus. -/
theorem verifyCaptcha_claim_match {st : BotState} {uid : String} {u : User}
    {input : String} {env : Env} {a : String}
    (hc : u.captchaState = .claimWait a)
    (hm : jsToUpper (jsTrim input) = a) :
    verifyCaptcha st uid u input env
      = (putUser st uid
          { u with captchaState := .notWaiting,
                   balance := u.balance +
                     (Int.floor (env.bonusRand *
                       ((st.config.dailyBonusMax - st.config.dailyBonusMin
                          + 1 : Int) : ℚ)) + st.config.dailyBonusMin),
                   claimedDailyBonus := true },
         [.reply .captchaCorrect,
          .writeUsers (putUser st uid
            { u with captchaState := .notWaiting,
                     balance := u.balance +
                       (Int.floor (env.bonusRand *
                         ((st.config.dailyBonusMax - st.config.dailyBonusMin
                            + 1 : Int) : ℚ)) + st.config.dailyBonusMin),
                     claimedDailyBonus := true }).users,
          .reply (.claimRewardMsg
            (Int.floor (env.bonusRand *
              ((st.config.dailyBonusMax - st.config.dailyBonusMin
                 + 1 : Int) : ℚ)) + st.config.dailyBonusMin)
            (u.balance +
              (Int.floor (env.bonusRand *
                ((st.config.dailyBonusMax - st.config.dailyBonusMin
                   + 1 : Int) : ℚ)) + st.config.dailyBonusMin))),
          .writeUsers (putUser st uid
            { u with captchaState := .notWaiting,
                     balance := u.balance +
                       (Int.floor (env.bonusRand *
                         ((st.config.dailyBonusMax - st.config.dailyBonusMin
                            + 1 : Int) : ℚ)) + st.config.dailyBonusMin),
                     claimedDailyBonus := true }).users,
          .reply (.menu u.isAdmin)]) := by
  unfold verifyCaptcha
  simp only [hc]
  rw [if_pos (by simp [CaptchaState.answer, hm])]
  rfl

/-- The drawn claim reward lies in `[lo, hi]` for every base draw in
`[0, 1)`. -/
theorem floorReward_mem {lo hi : Int} {q : ℚ} (h0 : 0 ≤ q) (h1 : q < 1)
    (hlh : lo ≤ hi) :
    lo ≤ Int.floor (q * ((hi - lo + 1 : Int) : ℚ)) + lo ∧
    Int.floor (q * ((hi - lo + 1 : Int) : ℚ)) + lo ≤ hi := by
  have hn : (0 : ℚ) < ((hi - lo + 1 : Int) : ℚ) := by
    exact_mod_cast (by omega : (0 : Int) < hi - lo + 1)
  constructor
  · have h2 : 0 ≤ Int.floor (q * ((hi - lo + 1 : Int) : ℚ)) :=
      Int.floor_nonneg.mpr (mul_nonneg h0 hn.le)
    omega
  · have hlt : Int.floor (q * ((hi - lo + 1 : Int) : ℚ)) < hi - lo + 1 := by
      rw [Int.floor_lt]
      calc q * ((hi - lo + 1 : Int) : ℚ)
          < 1 * ((hi - lo + 1 : Int) : ℚ) :=
            mul_lt_mul_of_pos_right h1 hn
        _ = ((hi - lo + 1 : Int) : ℚ) := one_mul _
    omega

/-- Every value of `[lo, hi]` is realised by some base draw in `[0, 1)`. -/
theorem floorReward_attain {lo hi k : Int} (h1 : lo ≤ k) (h2 : k ≤ hi) :
    ∃ q : ℚ, 0 ≤ q ∧ q < 1 ∧
      Int.floor (q * ((hi - lo + 1 : Int) : ℚ)) + lo = k := by
  have hn : (0 : ℚ) < ((hi - lo + 1 : Int) : ℚ) := by
    exact_mod_cast (by omega : (0 : Int) < hi - lo + 1)
  refine ⟨((k - lo : Int) : ℚ) / ((hi - lo + 1 : Int) : ℚ), ?_, ?_, ?_⟩
  · apply div_nonneg _ hn.le
    exact_mod_cast (by omega : (0 : Int) ≤ k - lo)
  · rw [div_lt_one hn]
    exact_mod_cast (by omega : (k - lo : Int) < hi - lo + 1)
  · rw [div_mul_cancel₀ _ hn.ne', Int.floor_intCast]
    omega

def uClaimWait : User := { uIdle with captchaState := .claimWait "A1B2C3" }

def stClaimWait : BotState := { st0 with users := [("u", uClaimWait)] }

/-- C3: while awaiting verification, the next inbound message is compared
against `expectedToken` case-insensitively after trimming surrounding
whitespace (the stored token is upper-cased, so trimming and upper-casing the
input decides the match); on a match of a claim challenge the credited reward
is `⌊draw · (max − min + 1)⌋ + min`, which lies in `[min, max]` for every
draw in `[0, 1)` and attains every value of `[min, max]` for some draw, the
balance increases by exactly that reward and `claimedDailyBonus` becomes
true; on a match of a task challenge the balance increases by exactly the
captured task's fixed reward and its id is appended to the completed list. -/
theorem C3_token_match_and_credit :
    (∀ st uid u input env a,
      u.captchaState.answer = some a → jsToUpper a = a →
      (Action.reply .captchaCorrect ∈ (verifyCaptcha st uid u input env).2 ↔
        jsToUpper (jsTrim input) = jsToUpper a)) ∧
    (∀ env, jsToUpper (generateCaptcha env) = generateCaptcha env) ∧
    (∀ st uid u input env a,
      u.captchaState = .claimWait a → jsToUpper (jsTrim input) = a →
      0 ≤ env.bonusRand → env.bonusRand < 1 →
      st.config.dailyBonusMin ≤ st.config.dailyBonusMax →
      ∃ reward : Int,
        st.config.dailyBonusMin ≤ reward ∧
        reward ≤ st.config.dailyBonusMax ∧
        (verifyCaptcha st uid u input env).1
          = putUser st uid
              { u with captchaState := .notWaiting,
                       balance := u.balance + reward,
                       claimedDailyBonus := true }) ∧
    (∀ (st : BotState) (uid : String) (u : User) (input : String)
        (env : Env) (a : String) (k : Int),
      u.captchaState = .claimWait a → jsToUpper (jsTrim input) = a →
      st.config.dailyBonusMin ≤ k → k ≤ st.config.dailyBonusMax →
      ∃ q : ℚ, 0 ≤ q ∧ q < 1 ∧
        (verifyCaptcha st uid u input { env with bonusRand := q }).1
          = putUser st uid
              { u with captchaState := .notWaiting,
                       balance := u.balance + k,
                       claimedDailyBonus := true }) ∧
    (∀ st uid u input env t a tmr,
      u.captchaState = .taskWait t a tmr → jsToUpper (jsTrim input) = a →
      (verifyCaptcha st uid u input env).1
        = putUser st uid
            { u with captchaState := .notWaiting,
                     balance := u.balance + t.bonus,
                     completedTasksToday :=
                       u.completedTasksToday ++ [t.id] }) := by
  refine ⟨?_, fun env => jsToUpper_idem env.rawToken, ?_, ?_, ?_⟩
  · intro st uid u input env a ha hup
    rw [hup]
    rcases hc : u.captchaState with _ | a' | ⟨t, a', tmr⟩
    · rw [hc] at ha
      exact absurd ha (by simp [CaptchaState.answer])
    · rw [hc] at ha
      obtain rfl : a' = a := by simpa [CaptchaState.answer] using ha
      by_cases hm : jsToUpper (jsTrim input) = a'
      · rw [verifyCaptcha_claim_match hc hm]
        simp [hm]
      · rw [verifyCaptcha_mismatch (by simp [hc, CaptchaState.answer, hm])]
        simp [hc, CaptchaState.timerRef, hm]
    · rw [hc] at ha
      obtain rfl : a' = a := by simpa [CaptchaState.answer] using ha
      by_cases hm : jsToUpper (jsTrim input) = a'
      · rw [verifyCaptcha_task_match hc hm]
        simp [hm]
      · rw [verifyCaptcha_mismatch (by simp [hc, CaptchaState.answer, hm])]
        simp [hc, CaptchaState.timerRef, hm]
  · intro st uid u input env a hc hm h0 h1 hlh
    exact ⟨_, (floorReward_mem h0 h1 hlh).1, (floorReward_mem h0 h1 hlh).2,
      by rw [verifyCaptcha_claim_match hc hm]⟩
  · intro st uid u input env a k hc hm hk1 hk2
    obtain ⟨q, hq0, hq1, hqk⟩ := floorReward_attain hk1 hk2
    refine ⟨q, hq0, hq1, ?_⟩
    have h := @verifyCaptcha_claim_match st uid u input
      { env with bonusRand := q } a hc hm
    rw [h]
    dsimp only
    rw [hqk]
  · intro st uid u input env t a tmr hc hm
    rw [verifyCaptcha_task_match hc hm]

theorem C3_token_match_and_credit_witness :
    (Action.reply .captchaCorrect
        ∈ (verifyCaptcha stClaimWait "u" uClaimWait " a1b2C3 " env0).2 ↔
      jsToUpper (jsTrim " a1b2C3 ") = jsToUpper "A1B2C3") ∧
    (∃ reward : Int,
      stClaimWait.config.dailyBonusMin ≤ reward ∧
      reward ≤ stClaimWait.config.dailyBonusMax ∧
      (verifyCaptcha stClaimWait "u" uClaimWait "a1b2c3" env0).1
        = putUser stClaimWait "u"
            { uClaimWait with captchaState := .notWaiting,
                              balance := uClaimWait.balance + reward,
                              claimedDailyBonus := true }) ∧
    (verifyCaptcha stTaskWait "u" uTaskWait "a1b2c3" env0).1
      = putUser stTaskWait "u"
          { uTaskWait with captchaState := .notWaiting,
                           balance := uTaskWait.balance + task0.bonus,
                           completedTasksToday :=
                             uTaskWait.completedTasksToday ++ [task0.id] } :=
  ⟨C3_token_match_and_credit.1 stClaimWait "u" uClaimWait " a1b2C3 " env0
      "A1B2C3" (by decide) (by decide),
   C3_token_match_and_credit.2.2.1 stClaimWait "u" uClaimWait "a1b2c3" env0
      "A1B2C3" (by decide) (by decide) le_rfl zero_lt_one (by decide),
   C3_token_match_and_credit.2.2.2.2 stTaskWait "u" uTaskWait "a1b2c3" env0
      task0 "A1B2C3" 7 (by decide) (by decide)⟩

/-- C4: a reply that does not match the expected token yields no credit —
the committed record is the old one with only the challenge cleared, so
balance, `claimedDailyBonus` and the completed-task list are unchanged — and
the attempt is consumed; in both the match and mismatch cases the pending
challenge is cleared, the mode becomes idle and the record is flushed, so a
second delivery of the same correct token is routed to plain command
dispatch and cannot credit twice. -/
theorem C4_mismatch_consumed_challenge_cleared :
    (∀ st uid u input env,
      some (jsToUpper (jsTrim input)) ≠ u.captchaState.answer →
      (verifyCaptcha st uid u input env).1
        = putUser st uid { u with captchaState := .notWaiting }) ∧
    (∀ st uid u input env, u.inGame = false →
      ∃ w : User, (verifyCaptcha st uid u input env).1 = putUser st uid w ∧
        w.captchaState = .notWaiting ∧ modeOf w = .idle ∧
        Action.writeUsers (putUser st uid w).users
          ∈ (verifyCaptcha st uid u input env).2) ∧
    (∀ st uid u input env body2 env2,
      u.isBlocked = false → u.lastLogin = env2.today → u.inGame = false →
      strStartsWith (jsTrim (jsToLower body2)) "/" = false →
      handleMessage (verifyCaptcha st uid u input env).1 uid body2 env2
        = ((verifyCaptcha st uid u input env).1, [.aiChat body2])) := by
  refine ⟨?_, ?_, ?_⟩
  · intro st uid u input env hne
    rw [verifyCaptcha_mismatch hne]
  · intro st uid u input env hg
    obtain ⟨w, hw1, hw2, -, -, hwg, hmem⟩ :=
      verifyCaptcha_clears st uid u input env
    exact ⟨w, hw1, hw2, by simp [modeOf, hw2, CaptchaState.isWaiting, hwg, hg],
      hmem⟩
  · intro st uid u input env body2 env2 hb hd hg hcmd
    obtain ⟨w, hw1, hw2, hwb, hwd, hwg, -⟩ :=
      verifyCaptcha_clears st uid u input env
    rw [hw1]
    rw [handleMessage_existing_idle (lookupU_setU_self _ _ _)
      (by rw [hwb, hb]) (by rw [hwd, hd]) (by rw [hw2]; rfl)
      (by rw [hwg, hg]),
      dispatchCommand_nonCommand hcmd]

theorem C4_mismatch_consumed_challenge_cleared_witness :
    (verifyCaptcha stTaskWait "u" uTaskWait "zzz" env0).1
      = putUser stTaskWait "u" { uTaskWait with captchaState := .notWaiting } ∧
    handleMessage (verifyCaptcha stTaskWait "u" uTaskWait "A1B2C3" env0).1
        "u" "A1B2C3" env0
      = ((verifyCaptcha stTaskWait "u" uTaskWait "A1B2C3" env0).1,
         [.aiChat "A1B2C3"]) :=
  ⟨C4_mismatch_consumed_challenge_cleared.1 stTaskWait "u" uTaskWait "zzz"
      env0 (by decide),
   C4_mismatch_consumed_challenge_cleared.2.2 stTaskWait "u" uTaskWait
      "A1B2C3" env0 "A1B2C3" env0 (by decide) (by decide) (by decide)
      (by decide)⟩

def uClaimed : User := { uIdle with claimedDailyBonus := true }

def stClaimed : BotState := { st0 with users := [("u", uClaimed)] }

/-- C5: for a user whose `claimedDailyBonus` is already true for the current
date, a claim attempt replies with the already-done message and performs no
state mutation at all, both at the `handleClaim` level and through the full
message pipeline without a date rollover — so claiming twice in the same
calendar date always fails on the second attempt. -/
theorem C5_second_claim_rejected :
    (∀ st uid u env, u.claimedDailyBonus = true →
      handleClaim st uid u env = (st, [.reply .alreadyClaimed])) ∧
    (∀ st uid body env u, lookupU st.users uid = some u →
      u.isBlocked = false → u.lastLogin = env.today →
      u.captchaState.isWaiting = false → u.inGame = false →
      u.claimedDailyBonus = true →
      jsTrim (jsToLower body) = "/klaim" →
      handleMessage st uid body env = (st, [.reply .alreadyClaimed])) := by
  constructor
  · intro st uid u env hcl
    unfold handleClaim
    exact if_pos hcl
  · intro st uid body env u hlk hb hd hw hg hcl hbody
    rw [handleMessage_existing_idle hlk hb hd hw hg]
    unfold dispatchCommand
    dsimp only
    rw [hbody]
    rw [if_neg (by decide), if_neg (by decide), if_neg (by decide),
      if_neg (by decide), if_pos (by decide)]
    unfold handleClaim
    exact if_pos hcl

theorem C5_second_claim_rejected_witness :
    handleMessage stClaimed "u" " /Klaim " env0
      = (stClaimed, [.reply .alreadyClaimed]) := by
  have h0 : lookupU stClaimed.users "u" = some uClaimed := by decide
  exact C5_second_claim_rejected.2 stClaimed "u" " /Klaim " env0 uClaimed h0
    (by decide) (by decide) (by decide) (by decide) (by decide) (by decide)

/-- C6: on an inbound event from a non-blocked user whose stored date
differs from the current date, the daily rollover runs before any
mode-specific handling or command dispatch: the whole event equals the
mode-specific phase applied to the rolled-over record, in which
`claimedDailyBonus` is false, the completed-task list is empty and the
stored date is today. -/
theorem C6_rollover_runs_first :
    ∀ st uid body env u, lookupU st.users uid = some u →
      u.isBlocked = false → u.lastLogin ≠ env.today →
      handleMessage st uid body env
        = processEvent (putUser st uid (rolloverUser u env.today)) uid
            (rolloverUser u env.today) body env ∧
      (rolloverUser u env.today).claimedDailyBonus = false ∧
      (rolloverUser u env.today).completedTasksToday = [] ∧
      (rolloverUser u env.today).lastLogin = env.today := by
  intro st uid body env u hlk hb hd
  refine ⟨?_, rfl, rfl, rfl⟩
  unfold handleMessage
  simp only [hlk]
  rw [if_neg (by simp [hb]), if_neg hd]
  simp

def uStale : User :=
  { uIdle with lastLogin := "Sun Oct 05 2025", claimedDailyBonus := true,
               completedTasksToday := [1] }

def stStale : BotState := { st0 with users := [("u", uStale)] }

theorem C6_rollover_runs_first_witness :
    handleMessage stStale "u" "/saldo" env0
      = processEvent (putUser stStale "u" (rolloverUser uStale env0.today))
          "u" (rolloverUser uStale env0.today) "/saldo" env0 ∧
    (rolloverUser uStale env0.today).claimedDailyBonus = false ∧
    (rolloverUser uStale env0.today).completedTasksToday = [] ∧
    (rolloverUser uStale env0.today).lastLogin = env0.today := by
  have h0 : lookupU stStale.users "u" = some uStale := by decide
  exact C6_rollover_runs_first stStale "u" "/saldo" env0 uStale h0
    (by decide) (by decide)

/-- C7: in the game, a message that does not parse as an integer yields the
retry prompt with no state change; a valid integer strictly below the stored
target yields the too-low prompt and strictly above the too-high prompt,
mutating nothing; a guess equal to the target credits exactly the fixed 250
reward once and leaves the game; the explicit exit keyword ends the game
with no reward; and in both game-ending cases the resulting mode is idle. -/
theorem C7_game_guess_semantics :
    (∀ st uid u input, jsTrim (jsToLower input) = "/exitgame" →
      handleGameInput st uid u input
        = (putUser st uid { u with inGame := false },
           [.writeUsers (putUser st uid { u with inGame := false }).users,
            .reply .gameExited, .reply (.menu u.isAdmin)])) ∧
    (∀ st uid u input, jsTrim (jsToLower input) ≠ "/exitgame" →
      jsParseInt input = none →
      handleGameInput st uid u input = (st, [.reply .invalidNumber])) ∧
    (∀ st uid u input g, jsTrim (jsToLower input) ≠ "/exitgame" →
      jsParseInt input = some g → g < u.gameAnswer →
      handleGameInput st uid u input = (st, [.reply .tooLow])) ∧
    (∀ st uid u input g, jsTrim (jsToLower input) ≠ "/exitgame" →
      jsParseInt input = some g → g > u.gameAnswer →
      handleGameInput st uid u input = (st, [.reply .tooHigh])) ∧
    (∀ st uid u input, jsTrim (jsToLower input) ≠ "/exitgame" →
      jsParseInt input = some u.gameAnswer →
      handleGameInput st uid u input
        = (putUser st uid
            { u with balance := u.balance + 250, inGame := false },
           [.writeUsers (putUser st uid
              { u with balance := u.balance + 250, inGame := false }).users,
            .reply (.gameWin u.gameAnswer 250 (u.balance + 250)),
            .reply (.menu u.isAdmin)])) ∧
    (∀ u : User, u.captchaState.isWaiting = false →
      modeOf { u with inGame := false } = .idle ∧
      modeOf { u with balance := u.balance + 250, inGame := false }
        = .idle) := by
  refine ⟨?_, ?_, ?_, ?_, ?_, ?_⟩
  · intro st uid u input hx
    unfold handleGameInput
    rw [if_pos hx]
  · intro st uid u input hx hp
    unfold handleGameInput
    rw [if_neg hx, hp]
  · intro st uid u input g hx hp hlt
    unfold handleGameInput
    rw [if_neg hx, hp]
    dsimp only
    rw [if_pos hlt]
  · intro st uid u input g hx hp hgt
    unfold handleGameInput
    rw [if_neg hx, hp]
    dsimp only
    rw [if_neg (by omega), if_pos hgt]
  · intro st uid u input hx hp
    unfold handleGameInput
    rw [if_neg hx, hp]
    dsimp only
    rw [if_neg (by omega), if_neg (by omega)]
  · intro u hw
    constructor <;> simp [modeOf, hw]

def uInGame : User := { uIdle with inGame := true, gameAnswer := 42 }

def stInGame : BotState := { st0 with users := [("u", uInGame)] }

theorem C7_game_guess_semantics_witness :
    handleGameInput stInGame "u" uInGame "abc" = (stInGame, [.reply .invalidNumber]) ∧
    handleGameInput stInGame "u" uInGame "17" = (stInGame, [.reply .tooLow]) ∧
    handleGameInput stInGame "u" uInGame "99" = (stInGame, [.reply .tooHigh]) ∧
    handleGameInput stInGame "u" uInGame "42"
      = (putUser stInGame "u"
          { uInGame with balance := uInGame.balance + 250, inGame := false },
         [.writeUsers (putUser stInGame "u"
            { uInGame with balance := uInGame.balance + 250,
                           inGame := false }).users,
          .reply (.gameWin uInGame.gameAnswer 250 (uInGame.balance + 250)),
          .reply (.menu uInGame.isAdmin)]) :=
  ⟨C7_game_guess_semantics.2.1 stInGame "u" uInGame "abc" (by decide)
      (by decide),
   C7_game_guess_semantics.2.2.1 stInGame "u" uInGame "17" 17 (by decide)
      (by decide) (by decide),
   C7_game_guess_semantics.2.2.2.1 stInGame "u" uInGame "99" 99 (by decide)
      (by decide) (by decide),
   C7_game_guess_semantics.2.2.2.2.1 stInGame "u" uInGame "42" (by decide)
      (by decide)⟩

def admin0 : User := { uIdle with isAdmin := true }

def c8_empty : BotState := { users := [("u", admin0)], tasks := [], config := cfg0 }

def c8_afterAdd : BotState :=
  (handleAddTugas c8_empty admin0 (some "150") (some "5") "desc").1

def c8_afterDel : BotState :=
  (handleDeleteTask c8_afterAdd admin0 (some "1")).1

/-- C8 counterexample: starting from an empty catalog, an admin `addTask`
creates id 1; deleting it empties the catalog again; the next `addTask` then
yields id 1 — not id 2 as the claim states. -/
theorem C8_counterexample :
    c8_afterAdd.tasks
      = [{ id := 1, bonus := 150, duration := 5, description := "desc" }] ∧
    c8_afterDel.tasks = [] ∧
    (handleAddTugas c8_afterDel admin0 (some "150") (some "5") "desc").2
      = [.writeTasks
           [{ id := 1, bonus := 150, duration := 5, description := "desc" }],
         .reply (.taskAdded 1)] ∧
    (1 : Int) ≠ 2 := by
  refine ⟨by decide, by decide, by decide, by decide⟩

/-- C8 amended: `addTask` assigns the new task id 1 when the catalog is
empty and `max(existing ids) + 1` otherwise — computed from the current
catalog, not from history, so after creating id 1 and deleting it the next
`addTask` yields id 1 again — and it rejects, without mutating the catalog,
any call where reward or duration fail to parse as integers, the description
is empty, or duration ≤ 0. -/
theorem C8_id_assignment_and_validation :
    (∀ st (u : User) a b d (bonus duration : Int), u.isAdmin = true →
      jsParseIntOpt a = some bonus → jsParseIntOpt b = some duration →
      d ≠ "" → 0 < duration →
      ∃ nt : Task,
        nt = { id := if st.tasks.length > 0 then maxTaskId st.tasks + 1
                     else 1,
               bonus := bonus, duration := duration, description := d } ∧
        handleAddTugas st u a b d
          = ({ st with tasks := st.tasks ++ [nt] },
             [.writeTasks (st.tasks ++ [nt]), .reply (.taskAdded nt.id)])) ∧
    (∀ st (u : User) a b d, u.isAdmin = true →
      (jsParseIntOpt a = none ∨ jsParseIntOpt b = none ∨ d = "" ∨
       (∃ dur : Int, jsParseIntOpt b = some dur ∧ dur ≤ 0)) →
      handleAddTugas st u a b d = (st, [.reply .addTugasUsage])) ∧
    ((handleAddTugas c8_afterDel admin0 (some "150") (some "5") "desc").2
      = [.writeTasks
           [{ id := 1, bonus := 150, duration := 5, description := "desc" }],
         .reply (.taskAdded 1)]) := by
  refine ⟨?_, ?_, by decide⟩
  · intro st u a b d bonus duration hadm ha hb hd hdur
    have hcond : ¬(d = "" ∨ duration ≤ 0) := by
      push_neg
      exact ⟨hd, by omega⟩
    have hadm' : ¬((!u.isAdmin) = true) := by simp [hadm]
    unfold handleAddTugas
    rw [if_neg hadm', ha, hb]
    dsimp only
    rw [if_neg hcond]
    exact ⟨_, rfl, rfl⟩
  · intro st u a b d hadm hbad
    unfold handleAddTugas
    rw [if_neg (by simp [hadm])]
    rcases h1 : jsParseIntOpt a with _ | d1 <;>
      rcases h2 : jsParseIntOpt b with _ | d2
    · rfl
    · rfl
    · rfl
    · have hcond : d = "" ∨ d2 ≤ 0 := by
        rcases hbad with ha | hb | hd | ⟨dur, hb, hdur⟩
        · rw [h1] at ha
          cases ha
        · rw [h2] at hb
          cases hb
        · exact Or.inl hd
        · rw [h2] at hb
          obtain rfl : d2 = dur := Option.some.inj hb
          exact Or.inr hdur
      dsimp only
      rw [if_pos hcond]

theorem C8_id_assignment_and_validation_witness :
    (∃ nt : Task,
      nt = { id := if c8_empty.tasks.length > 0 then maxTaskId c8_empty.tasks + 1
                   else 1,
             bonus := 150, duration := 5, description := "desc" } ∧
      handleAddTugas c8_empty admin0 (some "150") (some "5") "desc"
        = ({ c8_empty with tasks := c8_empty.tasks ++ [nt] },
           [.writeTasks (c8_empty.tasks ++ [nt]),
            .reply (.taskAdded nt.id)])) ∧
    handleAddTugas c8_empty admin0 (some "150") (some "xyz") "desc"
      = (c8_empty, [.reply .addTugasUsage]) :=
  ⟨C8_id_assignment_and_validation.1 c8_empty admin0 (some "150") (some "5")
      "desc" 150 5 (by decide) (by decide) (by decide) (by decide)
      (by decide),
   C8_id_assignment_and_validation.2.1 c8_empty admin0 (some "150")
      (some "xyz") "desc" (by decide) (Or.inr (Or.inl (by decide)))⟩

/-- C9: deleting a task from the catalog mutates only the catalog, never a
user record, so previously recorded completed-task ids are unaffected;
captcha resolution is entirely independent of the catalog; and a correct
answer to an in-flight task challenge credits the challenge's captured copy
of the task — its reward and its id — for any catalog contents, in
particular after the task has been deleted. -/
theorem C9_deletion_spares_inflight_challenge :
    (∀ st u a, (handleDeleteTask st u a).1.users = st.users) ∧
    (∀ (st : BotState) (ts : List Task) uid u input env,
      verifyCaptcha { st with tasks := ts } uid u input env
        = ({ (verifyCaptcha st uid u input env).1 with tasks := ts },
           (verifyCaptcha st uid u input env).2)) ∧
    (∀ st uid u input env t a tmr,
      u.captchaState = .taskWait t a tmr → jsToUpper (jsTrim input) = a →
      lookupU (verifyCaptcha st uid u input env).1.users uid
        = some { u with captchaState := .notWaiting,
                        balance := u.balance + t.bonus,
                        completedTasksToday :=
                          u.completedTasksToday ++ [t.id] }) := by
  refine ⟨?_, ?_, ?_⟩
  · intro st u a
    unfold handleDeleteTask
    repeat' split
    all_goals rfl
  · intro st ts uid u input env
    unfold verifyCaptcha
    rcases hc : u.captchaState with _ | a | ⟨t, a, tmr⟩ <;> simp only [hc] <;>
      split_ifs <;> rfl
  · intro st uid u input env t a tmr hc hm
    rw [verifyCaptcha_task_match hc hm]
    exact lookupU_setU_self _ _ _

def stTaskWaitNoCat : BotState := { stTaskWait with tasks := [] }

theorem C9_deletion_spares_inflight_challenge_witness :
    lookupU (verifyCaptcha stTaskWaitNoCat "u" uTaskWait "a1b2c3" env0).1.users
        "u"
      = some { uTaskWait with
                 captchaState := .notWaiting,
                 balance := uTaskWait.balance + task0.bonus,
                 completedTasksToday :=
                   uTaskWait.completedTasksToday ++ [task0.id] } :=
  C9_deletion_spares_inflight_challenge.2.2 stTaskWaitNoCat "u" uTaskWait
    "a1b2c3" env0 task0 "A1B2C3" 7 (by decide) (by decide)

/-- C10: an inbound message from an existing user whose blocked flag is set
returns immediately: no reply, no record mutation, no store write, and in
particular no daily rollover, since blocking is checked before the rollover. -/
theorem C10_blocked_user_short_circuits :
    ∀ st uid body env u, lookupU st.users uid = some u →
      u.isBlocked = true →
      handleMessage st uid body env = (st, []) := by
  intro st uid body env u hlk hb
  unfold handleMessage
  simp only [hlk]
  exact if_pos hb

def uBlocked : User :=
  { uIdle with isBlocked := true, lastLogin := "Sun Oct 05 2025" }

def stBlocked : BotState := { st0 with users := [("u", uBlocked)] }

theorem C10_blocked_user_short_circuits_witness :
    handleMessage stBlocked "u" "/klaim" env0 = (stBlocked, []) := by
  have h0 : lookupU stBlocked.users "u" = some uBlocked := by decide
  exact C10_blocked_user_short_circuits stBlocked "u" "/klaim" env0 uBlocked
    h0 (by decide)

end Alto
